import Mathlib

set_option maxHeartbeats 1000000

/-!
Shallow embedding of src/src/playlist/playlistdelegates.cpp (Clementine
playlist delegates): queue-badge painting, value formatting, size hints,
option adjustment for the current row, tooltip handling, and the
format-specific displayText delegates.

Qt strings are modelled as Option String: none is the null QString,
some s a non-null string with contents s.  A QVariant cell value is
modelled by the cases the code distinguishes; for the format-specific
delegates the input is abstracted by the outcome of value.toInt(&ok)
(none when the conversion fails, some n when it yields n).  Qt floats
and doubles are read as exact rationals.
-/

/-- QString::isNull on the Option String model of QString. -/
def qIsNull (s : Option String) : Bool := s.isNone

/-- QString::isEmpty: true for the null string and for the empty string. -/
def qIsEmpty : Option String → Bool
  | none => true
  | some s => s == ""

/-- QVariant as the delegate code distinguishes it: Int, Float, Double
(both read via toDouble, modelled as exact rationals), and every other
type, carried as the Option String produced by value.toString(). -/
inductive QVariant where
  | vInt (v : ℤ)
  | vFloat (v : ℚ)
  | vDouble (v : ℚ)
  | vOther (s : Option String)
deriving DecidableEq

/-- QRect in Qt stores its two corners: x1 (left), y1 (top), x2 (right),
y2 (bottom); setLeft and setRight move one edge leaving the opposite
edge fixed. -/
structure QRect where
  left : ℤ
  top : ℤ
  right : ℤ
  bottom : ℤ
deriving DecidableEq

/-- QSize as width and height. -/
structure QSize where
  width : ℤ
  height : ℤ
deriving DecidableEq

/-- QFont, reduced to the one attribute the delegates touch. -/
structure QFont where
  pointSize : ℤ
deriving DecidableEq

/-- QStyleOptionViewItem, reduced to the fields this file reads: the
cell rectangle and the font. -/
structure QStyleOptionViewItem where
  rect : QRect
  font : QFont
deriving DecidableEq

/-- QueuedItemDelegate::kQueueBoxBorder (playlistdelegates.cpp line 33). -/
def kQueueBoxBorder : ℤ := 1

/-- QueuedItemDelegate::kQueueBoxLength (line 35). -/
def kQueueBoxLength : ℤ := 30

/-- QueuedItemDelegate::kQueueOpacitySteps (line 38). -/
def kQueueOpacitySteps : ℤ := 10

/-- QueuedItemDelegate::kQueueOpacityLowerBound = 0.4 (line 39), read as
the exact rational 2/5. -/
def kQueueOpacityLowerBound : ℚ := 2/5

/-- PlaylistDelegateBase::kMinHeight (line 41). -/
def kMinHeight : ℤ := 19

/-- QString::number on an int. -/
def intNumber (v : ℤ) : String := toString v

/-- QString::number on a double; the decimal rendering is abstracted as
the standard rendering of the exact rational. -/
def doubleNumber (v : ℚ) : String := toString v

/-- The opacity computed in QueuedItemDelegate::paint (lines 55 to 58),
step by step as the code writes it, over exact rationals:
opacity = steps - qMin(steps, queue_pos); opacity /= steps;
opacity *= 1 - lower_bound; opacity += lower_bound. -/
def queueOpacity (queue_pos : ℤ) : ℚ :=
  let o1 : ℚ := ((kQueueOpacitySteps - min kQueueOpacitySteps queue_pos : ℤ) : ℚ)
  let o2 : ℚ := o1 / (kQueueOpacitySteps : ℚ)
  let o3 : ℚ := o2 * (1 - kQueueOpacityLowerBound)
  o3 + kQueueOpacityLowerBound

/-- The queue badge that QueuedItemDelegate::paint hands to DrawBox:
its text, the line rectangle DrawBox receives, and the painter opacity
in force while it is drawn. -/
structure QueueBadge where
  text : String
  rect : QRect
  opacity : ℚ
deriving DecidableEq

/-- QueuedItemDelegate::paint (lines 49 to 67), as the badge it draws:
after the base-class paint, when the column is the indicator column and
the Role_QueuePosition data (an int) is not -1, it sets the opacity and
draws the box with text QString::number(queue_pos + 1) over option.rect;
otherwise no badge is drawn. -/
def QueuedItemDelegate.paint (indicator_column column queue_pos : ℤ)
    (optionRect : QRect) : Option QueueBadge :=
  if column = indicator_column then
    if queue_pos ≠ -1 then
      some { text := intNumber (queue_pos + 1)
             rect := optionRect
             opacity := queueOpacity queue_pos }
    else none
  else none

/-- QueuedItemDelegate::queue_indicator_size (lines 105 to 113). -/
def QueuedItemDelegate.queue_indicator_size
    (indicator_column column queue_pos : ℤ) : ℤ :=
  if column = indicator_column then
    if queue_pos ≠ -1 then kQueueBoxLength + kQueueBoxBorder * 2 else 0
  else 0

/-- PlaylistDelegateBase::displayText (lines 123 to 150): ints and
doubles render only when strictly positive, any other type renders via
value.toString(); a non-null suffix is appended to a non-null text after
a single space. -/
def PlaylistDelegateBase.displayText (suffix_ : Option String)
    (value : QVariant) : Option String :=
  let text : Option String :=
    match value with
    | .vInt v => if v > 0 then some (intNumber v) else none
    | .vFloat v => if v > 0 then some (doubleNumber v) else none
    | .vDouble v => if v > 0 then some (doubleNumber v) else none
    | .vOther s => s
  match text, suffix_ with
  | some t, some suf => some (t ++ " " ++ suf)
  | t, _ => t

/-- PlaylistDelegateBase::sizeHint (lines 152 to 157): take the
base-class hint and raise the height to kMinHeight when it is below. -/
def PlaylistDelegateBase.sizeHint (base : QSize) : QSize :=
  if base.height < kMinHeight then { base with height := kMinHeight } else base

/-- PlaylistDelegateBase::Adjusted (lines 173 to 189).  The header
lookup logicalIndexAt(top_left) is abstracted as the parameter
firstVisibleColumn; isCurrent is the Role_IsCurrent data read as bool.
When the column is not the first visible one the option is returned as
is; otherwise a copy is returned whose rect left edge is moved right by
20 when the row is current (QRect::setLeft leaves the right edge
fixed). -/
def PlaylistDelegateBase.Adjusted (firstVisibleColumn column : ℤ)
    (isCurrent : Bool) (option : QStyleOptionViewItem) : QStyleOptionViewItem :=
  if firstVisibleColumn ≠ column then option
  else if isCurrent then
    { option with rect := { option.rect with left := option.rect.left + 20 } }
  else option

/-- Modelled from the spec: Playlist::Column_Title, the title column of
the playlist model (playlist.h is not under src; Title is the first
column). -/
def Column_Title : ℤ := 0

/-- The stop badge drawn by PlaylistDelegateBase::paint (lines 159 to
171): when the column is Playlist::Column_Title and the Role_StopAfter
data is true, DrawBox is called on a copy of option.rect whose right
edge is moved left by queue_indicator_size (QRect::setRight leaves the
left edge fixed); otherwise no stop badge is drawn. -/
def PlaylistDelegateBase.paintStopBox (indicator_column column queue_pos : ℤ)
    (stopAfter : Bool) (optionRect : QRect) : Option QRect :=
  if column = Column_Title then
    if stopAfter then
      some { optionRect with
             right := optionRect.right -
               QueuedItemDelegate.queue_indicator_size indicator_column column queue_pos }
    else none
  else none

/-- The event types PlaylistDelegateBase::helpEvent switches on. -/
inductive QEventType where
  | toolTip
  | queryWhatsThis
  | whatsThis
  | plainEvent
deriving DecidableEq

/-- What a helpEvent call returns and shows. -/
structure HelpEventResult where
  handled : Bool
  shownToolTip : Option String
  shownWhatsThis : Option String
deriving DecidableEq

/-- PlaylistDelegateBase::helpEvent (lines 191 to 225).  The virtual
displayText is passed in as dtext; indexData is index.data() (the
display-role value) and toolTipRoleData is the raw Qt::ToolTipRole data
the stock QAbstractItemDelegate would have shown, which this override
never reads.  Null event or view: return false.  Empty formatted text:
return false.  ToolTip: show the formatted text and return true;
QueryWhatsThis: return true; WhatsThis: show the text and return true;
anything else: return false. -/
def PlaylistDelegateBase.helpEvent (dtext : QVariant → Option String)
    (eventIsNull viewIsNull : Bool) (etype : QEventType)
    (indexData : QVariant) (toolTipRoleData : Option String) : HelpEventResult :=
  if eventIsNull || viewIsNull then ⟨false, none, none⟩
  else
    let text := dtext indexData
    if qIsEmpty text then ⟨false, none, none⟩
    else
      match etype with
      | .toolTip => ⟨true, text, none⟩
      | .queryWhatsThis => ⟨true, none, none⟩
      | .whatsThis => ⟨true, none, text⟩
      | .plainEvent => ⟨false, none, none⟩

/-- Two-digit zero padding used by the sprintf formats below. -/
def pad2 (n : ℤ) : String :=
  if 0 ≤ n ∧ n < 10 then "0" ++ toString n else toString n

/-- Modelled from the spec: Utilities::PrettyTime, the duration
formatter (core/utilities.cpp is not under src).  It renders
h:mm:ss when there is a whole hour and m:ss otherwise. -/
def prettyTime (seconds : ℤ) : String :=
  let hours := seconds / (60 * 60)
  let minutes := (seconds / 60) % 60
  let secs := seconds % 60
  if hours ≠ 0 then
    toString hours ++ ":" ++ pad2 minutes ++ ":" ++ pad2 secs
  else
    toString minutes ++ ":" ++ pad2 secs

/-- Modelled from the spec: Utilities::PrettySize, the byte-count
formatter (core/utilities.cpp is not under src).  Non-positive counts
render as the empty string; otherwise bytes, KB, MB or GB with the
scaled value kept exact. -/
def prettySize (bytes : ℤ) : String :=
  if bytes ≤ 0 then ""
  else if bytes ≤ 1000 then toString bytes ++ " bytes"
  else if bytes ≤ 1000 * 1000 then doubleNumber ((bytes : ℚ) / 1000) ++ " KB"
  else if bytes ≤ 1000 * 1000 * 1000 then
    doubleNumber ((bytes : ℚ) / (1000 * 1000)) ++ " MB"
  else doubleNumber ((bytes : ℚ) / (1000 * 1000 * 1000)) ++ " GB"

/-- The int-to-uint conversion QDateTime::fromTime_t applies to its
time_t argument: reduction modulo 2^32. -/
def fromTimeT (time : ℤ) : ℤ := time % 4294967296

/-- Civil date (year, month, day) of a count of days since the Unix
epoch, by the standard era decomposition of the proleptic Gregorian
calendar. -/
def civilFromDays (z0 : ℤ) : ℤ × ℤ × ℤ :=
  let z := z0 + 719468
  let era := (if 0 ≤ z then z else z - 146096) / 146097
  let doe := z - era * 146097
  let yoe := (doe - doe / 1460 + doe / 36524 - doe / 146096) / 365
  let y := yoe + era * 400
  let doy := doe - (365 * yoe + yoe / 4 - yoe / 100)
  let mp := (5 * doy + 2) / 153
  let d := doy - (153 * mp + 2) / 5 + 1
  let m := mp + (if mp < 10 then 3 else -9)
  (y + (if m ≤ 2 then 1 else 0), m, d)

/-- Day part of the date-time rendering: day/month/year. -/
def dateStr (days : ℤ) : String :=
  toString (civilFromDays days).2.2 ++ "/" ++
    toString (civilFromDays days).2.1 ++ "/" ++ toString (civilFromDays days).1

/-- Time-of-day part of the date-time rendering: hh:mm. -/
def timeStr (tod : ℤ) : String :=
  pad2 (tod / 3600) ++ ":" ++ pad2 ((tod % 3600) / 60)

/-- Modelled from the spec: QDateTime::fromTime_t(time).toString with
the system short date-time format (a Qt library call).  The timestamp
is reduced to an unsigned 32-bit time_t and rendered as a short
day/month/year hh:mm string. -/
def formatDateTime (time : ℤ) : String :=
  dateStr (fromTimeT time / 86400) ++ " " ++ timeStr (fromTimeT time % 86400)

/-- LengthItemDelegate::displayText (lines 228 to 235), with the value
abstracted by its toInt outcome: PrettyTime when the conversion
succeeded and gave a positive count of seconds, QString::null
otherwise. -/
def LengthItemDelegate.displayText (conv : Option ℤ) : Option String :=
  match conv with
  | some seconds => if seconds > 0 then some (prettyTime seconds) else none
  | none => none

/-- SizeItemDelegate::displayText (lines 238 to 245): PrettySize of the
converted byte count when the conversion succeeded, the null QString()
otherwise. -/
def SizeItemDelegate.displayText (conv : Option ℤ) : Option String :=
  match conv with
  | some bytes => some (prettySize bytes)
  | none => none

/-- DateItemDelegate::displayText (lines 247 to 256): QString::null
when the conversion failed or gave -1, the formatted date-time
otherwise. -/
def DateItemDelegate.displayText (conv : Option ℤ) : Option String :=
  match conv with
  | none => none
  | some time => if time = -1 then none else some (formatDateTime time)

/-- Modelled from the spec: the Song::FileType enumerators (song.h is
not under src); Unknown is 0, the audio types follow, Stream is the
out-of-line stream code. -/
def Type_Unknown : ℤ := 0

/-- Song::FileType code for ASF. -/
def Type_Asf : ℤ := 1

/-- Song::FileType code for FLAC. -/
def Type_Flac : ℤ := 2

/-- Song::FileType code for MP4. -/
def Type_Mp4 : ℤ := 3

/-- Song::FileType code for MPC. -/
def Type_Mpc : ℤ := 4

/-- Song::FileType code for MPEG. -/
def Type_Mpeg : ℤ := 5

/-- Song::FileType code for Ogg FLAC. -/
def Type_OggFlac : ℤ := 6

/-- Song::FileType code for Ogg Speex. -/
def Type_OggSpeex : ℤ := 7

/-- Song::FileType code for Ogg Vorbis. -/
def Type_OggVorbis : ℤ := 8

/-- Song::FileType code for AIFF. -/
def Type_Aiff : ℤ := 9

/-- Song::FileType code for WAV. -/
def Type_Wav : ℤ := 10

/-- Song::FileType code for TrueAudio. -/
def Type_TrueAudio : ℤ := 11

/-- Song::FileType code for a stream. -/
def Type_Stream : ℤ := 99

/-- The twelve codes that the switch in
FileTypeItemDelegate::displayText labels with a specific name. -/
def recognisedFileTypeCodes : List ℤ :=
  [Type_Asf, Type_Flac, Type_Mp4, Type_Mpc, Type_Mpeg, Type_OggFlac,
   Type_OggSpeex, Type_OggVorbis, Type_Aiff, Type_Wav, Type_TrueAudio,
   Type_Stream]

/-- FileTypeItemDelegate::displayText (lines 258 to 284): a failed
conversion gives tr(Unknown); otherwise the int is cast to
Song::FileType and switched on, with Type_Unknown and every unlisted
code falling through to Unknown. -/
def FileTypeItemDelegate.displayText (conv : Option ℤ) : Option String :=
  match conv with
  | none => some "Unknown"
  | some t =>
      if t = Type_Asf then some "ASF"
      else if t = Type_Flac then some "FLAC"
      else if t = Type_Mp4 then some "MP4"
      else if t = Type_Mpc then some "MPC"
      else if t = Type_Mpeg then some "MP3"
      else if t = Type_OggFlac then some "Ogg FLAC"
      else if t = Type_OggSpeex then some "Ogg Speex"
      else if t = Type_OggVorbis then some "Ogg Vorbis"
      else if t = Type_Aiff then some "AIFF"
      else if t = Type_Wav then some "WAV"
      else if t = Type_TrueAudio then some "TrueAudio"
      else if t = Type_Stream then some "Stream"
      else some "Unknown"

theorem queueOpacity_eq (p : ℤ) :
    queueOpacity p = 2/5 + 3/50 * ((10 - min 10 p : ℤ) : ℚ) := by
  simp only [queueOpacity, kQueueOpacitySteps, kQueueOpacityLowerBound]
  push_cast
  ring

/-- C4: the badge opacity is the linear ramp
lower + (1 - lower) * (steps - min(steps, p)) / steps =
0.4 + 0.6 * (10 - min(10, p)) / 10; it is 1 at p = 0, non-increasing in
p, equal to 0.4 from p = 10 on, and always within [0.4, 1]. -/
theorem queueOpacity_linear_ramp (p : ℤ) (hp : 0 ≤ p) :
    queueOpacity p =
      kQueueOpacityLowerBound + (1 - kQueueOpacityLowerBound) *
        (((kQueueOpacitySteps - min kQueueOpacitySteps p : ℤ) : ℚ) /
          (kQueueOpacitySteps : ℚ)) ∧
    queueOpacity p = 2/5 + 3/5 * (((10 - min 10 p : ℤ) : ℚ) / 10) ∧
    queueOpacity 0 = 1 ∧
    (∀ q : ℤ, p ≤ q → queueOpacity q ≤ queueOpacity p) ∧
    (10 ≤ p → queueOpacity p = 2/5) ∧
    2/5 ≤ queueOpacity p ∧ queueOpacity p ≤ 1 := by
  have hmin0 : (0 : ℤ) ≤ min 10 p := by omega
  have hmin10 : min (10 : ℤ) p ≤ 10 := min_le_left _ _
  have hx0 : (0 : ℚ) ≤ ((10 - min 10 p : ℤ) : ℚ) := by
    exact_mod_cast (by omega : (0 : ℤ) ≤ 10 - min 10 p)
  have hx10 : ((10 - min 10 p : ℤ) : ℚ) ≤ 10 := by
    exact_mod_cast (by omega : (10 : ℤ) - min 10 p ≤ 10)
  refine ⟨?_, ?_, ?_, ?_, ?_, ?_, ?_⟩
  · rw [queueOpacity_eq]
    simp only [kQueueOpacitySteps, kQueueOpacityLowerBound]
    push_cast
    ring
  · rw [queueOpacity_eq]
    push_cast
    ring
  · rw [queueOpacity_eq]
    norm_num
  · intro q hq
    rw [queueOpacity_eq, queueOpacity_eq]
    have h2 : (10 : ℤ) - min 10 q ≤ 10 - min 10 p := by omega
    have h3 : ((10 - min 10 q : ℤ) : ℚ) ≤ ((10 - min 10 p : ℤ) : ℚ) := by
      exact_mod_cast h2
    linarith
  · intro h10
    rw [queueOpacity_eq, min_eq_left h10]
    norm_num
  · rw [queueOpacity_eq]; linarith
  · rw [queueOpacity_eq]; linarith

/-- C4 witness: the ramp evaluated concretely. -/
theorem queueOpacity_linear_ramp_check :
    queueOpacity 0 = 1 ∧ queueOpacity 12 = 2/5 ∧ 2/5 ≤ queueOpacity 12 := by
  have h := queueOpacity_linear_ramp 12 (by decide)
  exact ⟨h.2.2.1, h.2.2.2.2.1 (by decide), h.2.2.2.2.2.1⟩

/-- C2 counterexample: at the indicator column with queue position -2,
which is negative, QueuedItemDelegate::paint does draw a badge, because
the code only skips the sentinel -1; the claim says no badge is drawn
for any negative queue position. -/
theorem queuedPaint_negative_pos_draws :
    (QueuedItemDelegate.paint 0 0 (-2) ⟨0, 0, 100, 16⟩).isSome = true ∧
    (-2 : ℤ) < 0 := by
  exact ⟨rfl, by decide⟩

/-- C2 (amended): QueuedItemDelegate::paint draws the badge, showing
queue position + 1, exactly when the column is the indicator column and
the queue position differs from the sentinel -1; at queue position -1
no badge is drawn. -/
theorem queuedPaint_badge_characterisation (ic col qp : ℤ) (rect : QRect) :
    ((QueuedItemDelegate.paint ic col qp rect).isSome = true ↔
      col = ic ∧ qp ≠ -1) ∧
    (col = ic → qp ≠ -1 →
      QueuedItemDelegate.paint ic col qp rect =
        some ⟨intNumber (qp + 1), rect, queueOpacity qp⟩) ∧
    (qp = -1 → QueuedItemDelegate.paint ic col qp rect = none) := by
  unfold QueuedItemDelegate.paint
  split_ifs with h1 h2 <;> simp_all

/-- C2 witness: a concrete badge. -/
theorem queuedPaint_badge_check :
    QueuedItemDelegate.paint 3 3 4 ⟨0, 0, 100, 16⟩ =
      some ⟨intNumber (4 + 1), ⟨0, 0, 100, 16⟩, queueOpacity 4⟩ := by
  exact (queuedPaint_badge_characterisation 3 3 4 _).2.1 rfl (by decide)

/-- C5: PlaylistDelegateBase::sizeHint never returns a height below
kMinHeight = 19; a base hint below 19 is raised to exactly 19 with the
width untouched, and a base hint at 19 or more is returned unchanged. -/
theorem sizeHint_min_height (base : QSize) :
    kMinHeight ≤ (PlaylistDelegateBase.sizeHint base).height ∧
    (base.height < kMinHeight →
      PlaylistDelegateBase.sizeHint base = { base with height := kMinHeight }) ∧
    (kMinHeight ≤ base.height → PlaylistDelegateBase.sizeHint base = base) ∧
    (PlaylistDelegateBase.sizeHint base).width = base.width := by
  unfold PlaylistDelegateBase.sizeHint
  split_ifs with h
  · exact ⟨le_rfl, fun _ => rfl, fun h2 => absurd h2 (not_le.mpr h), rfl⟩
  · exact ⟨not_lt.mp h, fun h2 => absurd h2 h, fun _ => rfl, rfl⟩

/-- C5 witness: a short base hint is raised to height 19. -/
theorem sizeHint_min_height_check :
    PlaylistDelegateBase.sizeHint ⟨120, 10⟩ = ⟨120, 19⟩ := by
  exact (sizeHint_min_height ⟨120, 10⟩).2.1 (by decide)

/-- C3: PlaylistDelegateBase::displayText on int, double and float
values: the text is blank (null) when the value is non-positive and the
decimal rendering of the value when it is positive; when the text is
non-null and a suffix is configured the suffix follows after a single
space. -/
theorem displayTextBase_numeric (suf : Option String) :
    (∀ v : ℤ,
      (v ≤ 0 → PlaylistDelegateBase.displayText suf (.vInt v) = none) ∧
      (0 < v → PlaylistDelegateBase.displayText suf (.vInt v) =
        match suf with
        | none => some (intNumber v)
        | some s => some (intNumber v ++ " " ++ s))) ∧
    (∀ v : ℚ,
      (v ≤ 0 → PlaylistDelegateBase.displayText suf (.vDouble v) = none) ∧
      (0 < v → PlaylistDelegateBase.displayText suf (.vDouble v) =
        match suf with
        | none => some (doubleNumber v)
        | some s => some (doubleNumber v ++ " " ++ s))) ∧
    (∀ v : ℚ,
      (v ≤ 0 → PlaylistDelegateBase.displayText suf (.vFloat v) = none) ∧
      (0 < v → PlaylistDelegateBase.displayText suf (.vFloat v) =
        match suf with
        | none => some (doubleNumber v)
        | some s => some (doubleNumber v ++ " " ++ s))) := by
  refine ⟨fun v => ⟨fun h => ?_, fun h => ?_⟩, fun v => ⟨fun h => ?_, fun h => ?_⟩,
    fun v => ⟨fun h => ?_, fun h => ?_⟩⟩
  · rcases suf with _ | s <;> simp [PlaylistDelegateBase.displayText, not_lt.mpr h]
  · rcases suf with _ | s <;> simp [PlaylistDelegateBase.displayText, h]
  · rcases suf with _ | s <;> simp [PlaylistDelegateBase.displayText, not_lt.mpr h]
  · rcases suf with _ | s <;> simp [PlaylistDelegateBase.displayText, h]
  · rcases suf with _ | s <;> simp [PlaylistDelegateBase.displayText, not_lt.mpr h]
  · rcases suf with _ | s <;> simp [PlaylistDelegateBase.displayText, h]

/-- C3 witness: concrete values with a configured suffix. -/
theorem displayTextBase_numeric_check :
    PlaylistDelegateBase.displayText (some "kbps") (.vInt 0) = none ∧
    PlaylistDelegateBase.displayText (some "kbps") (.vInt 5) =
      some (intNumber 5 ++ " " ++ "kbps") := by
  exact ⟨((displayTextBase_numeric (some "kbps")).1 0).1 (by decide),
         ((displayTextBase_numeric (some "kbps")).1 5).2 (by decide)⟩

/-- C6: PlaylistDelegateBase::Adjusted moves the rect left edge right
by exactly 20 only when the column is the first visible one and the row
is current; otherwise the option comes back unchanged, and even in the
shifted case the rect top, right and bottom edges and the font are
untouched. -/
theorem adjusted_spec (fv col : ℤ) (cur : Bool) (opt : QStyleOptionViewItem) :
    (fv = col → cur = true →
      PlaylistDelegateBase.Adjusted fv col cur opt =
        { opt with rect := { opt.rect with left := opt.rect.left + 20 } }) ∧
    (fv ≠ col ∨ cur = false →
      PlaylistDelegateBase.Adjusted fv col cur opt = opt) ∧
    (PlaylistDelegateBase.Adjusted fv col cur opt).rect.top = opt.rect.top ∧
    (PlaylistDelegateBase.Adjusted fv col cur opt).rect.right = opt.rect.right ∧
    (PlaylistDelegateBase.Adjusted fv col cur opt).rect.bottom = opt.rect.bottom ∧
    (PlaylistDelegateBase.Adjusted fv col cur opt).font = opt.font := by
  unfold PlaylistDelegateBase.Adjusted
  split_ifs with h1 h2 <;> simp_all

/-- C6 witness: the current row in the first visible column is shifted
by 20. -/
theorem adjusted_spec_check :
    PlaylistDelegateBase.Adjusted 2 2 true ⟨⟨5, 1, 50, 17⟩, ⟨11⟩⟩ =
      ⟨⟨5 + 20, 1, 50, 17⟩, ⟨11⟩⟩ := by
  exact (adjusted_spec 2 2 true ⟨⟨5, 1, 50, 17⟩, ⟨11⟩⟩).1 rfl rfl

/-- C7: on a tooltip event, PlaylistDelegateBase::helpEvent shows the
displayText formatting of the index data and returns true; with a null
event or view, or an empty formatted text, it returns false and shows
nothing; the raw tooltip-role data never influences the outcome. -/
theorem helpEvent_tooltip (dtext : QVariant → Option String)
    (data : QVariant) (ttip : Option String) :
    (∀ en vn : Bool, (en || vn) = true →
      PlaylistDelegateBase.helpEvent dtext en vn .toolTip data ttip =
        ⟨false, none, none⟩) ∧
    (qIsEmpty (dtext data) = true →
      PlaylistDelegateBase.helpEvent dtext false false .toolTip data ttip =
        ⟨false, none, none⟩) ∧
    (qIsEmpty (dtext data) = false →
      PlaylistDelegateBase.helpEvent dtext false false .toolTip data ttip =
        ⟨true, dtext data, none⟩) ∧
    (∀ other : Option String,
      PlaylistDelegateBase.helpEvent dtext false false .toolTip data other =
        PlaylistDelegateBase.helpEvent dtext false false .toolTip data ttip) := by
  unfold PlaylistDelegateBase.helpEvent
  refine ⟨?_, ?_, ?_, fun other => rfl⟩
  · intro en vn h
    simp [h]
  · intro h
    simp [h]
  · intro h
    simp [h]

/-- C7 witness: a tooltip on a formatted int cell. -/
theorem helpEvent_tooltip_check :
    PlaylistDelegateBase.helpEvent (PlaylistDelegateBase.displayText none)
        false false .toolTip (.vInt 7) (some "raw") =
      ⟨true, PlaylistDelegateBase.displayText none (.vInt 7), none⟩ := by
  exact (helpEvent_tooltip (PlaylistDelegateBase.displayText none) (.vInt 7)
    (some "raw")).2.2.1 (by decide)

/-- C8: the stop badge is drawn exactly when the column is
Column_Title and the stop-after role is set, and its rectangle is the
option rect with the right edge pulled left by queue_indicator_size, so
it clears the queue badge. -/
theorem paintStopBox_spec (ic col qp : ℤ) (stopAfter : Bool) (rect : QRect) :
    ((PlaylistDelegateBase.paintStopBox ic col qp stopAfter rect).isSome = true ↔
      col = Column_Title ∧ stopAfter = true) ∧
    (col = Column_Title → stopAfter = true →
      PlaylistDelegateBase.paintStopBox ic col qp stopAfter rect =
        some { rect with right := rect.right -
          QueuedItemDelegate.queue_indicator_size ic col qp }) := by
  unfold PlaylistDelegateBase.paintStopBox
  split_ifs with h1 h2 <;> simp_all

/-- C8 witness: a queued title row pulls the stop badge 32 pixels in. -/
theorem paintStopBox_check :
    PlaylistDelegateBase.paintStopBox 0 0 2 true ⟨0, 0, 100, 16⟩ =
      some ⟨0, 0, 100 - 32, 16⟩ := by
  exact (paintStopBox_spec 0 0 2 true ⟨0, 0, 100, 16⟩).2 rfl rfl

/-- C9: a converted int that is not one of the twelve labelled
Song::FileType codes, and the Type_Unknown code itself, give the label
Unknown from FileTypeItemDelegate::displayText; the output is non-empty
for every input, converted or not. -/
theorem fileTypeDelegate_unknown :
    (∀ t : ℤ, t ∉ recognisedFileTypeCodes →
      FileTypeItemDelegate.displayText (some t) = some "Unknown") ∧
    FileTypeItemDelegate.displayText (some Type_Unknown) = some "Unknown" ∧
    (∀ conv : Option ℤ, qIsEmpty (FileTypeItemDelegate.displayText conv) = false) := by
  refine ⟨?_, rfl, ?_⟩
  · intro t ht
    simp only [recognisedFileTypeCodes, List.mem_cons, List.not_mem_nil,
      or_false] at ht
    push_neg at ht
    obtain ⟨h1, h2, h3, h4, h5, h6, h7, h8, h9, h10, h11, h12⟩ := ht
    simp [FileTypeItemDelegate.displayText, h1, h2, h3, h4, h5, h6, h7, h8,
      h9, h10, h11, h12]
  · intro conv
    rcases conv with _ | t
    · rfl
    · simp only [FileTypeItemDelegate.displayText]
      split_ifs <;> rfl

/-- C9 witness: an unrecognised code and a malformed value. -/
theorem fileTypeDelegate_unknown_check :
    FileTypeItemDelegate.displayText (some 55) = some "Unknown" ∧
    qIsEmpty (FileTypeItemDelegate.displayText none) = false := by
  exact ⟨fileTypeDelegate_unknown.1 55 (by decide),
         fileTypeDelegate_unknown.2.2 none⟩

/-- C1 counterexample: on a malformed value, the value whose toInt
conversion fails, FileTypeItemDelegate::displayText returns the label
Unknown, which is neither null nor empty, so not every format-specific
delegate returns a blank string there. -/
theorem fileTypeMalformed_not_blank :
    FileTypeItemDelegate.displayText none = some "Unknown" ∧
    qIsEmpty (FileTypeItemDelegate.displayText none) = false ∧
    qIsNull (FileTypeItemDelegate.displayText none) = false :=
  ⟨rfl, rfl, rfl⟩

/-- C1 (amended): on a malformed value the Length, Size and Date
delegates return the blank (null) string, while the FileType delegate
returns the non-blank label Unknown. -/
theorem malformed_blank_except_filetype :
    LengthItemDelegate.displayText none = none ∧
    SizeItemDelegate.displayText none = none ∧
    DateItemDelegate.displayText none = none ∧
    qIsEmpty (LengthItemDelegate.displayText none) = true ∧
    qIsEmpty (SizeItemDelegate.displayText none) = true ∧
    qIsEmpty (DateItemDelegate.displayText none) = true ∧
    FileTypeItemDelegate.displayText none = some "Unknown" :=
  ⟨rfl, rfl, rfl, rfl, rfl, rfl, rfl⟩

theorem formatDateTime_ne_empty (t : ℤ) : formatDateTime t ≠ "" := by
  intro h
  have hl : (formatDateTime t).length = 0 := by rw [h]; rfl
  simp only [formatDateTime, String.length_append] at hl
  have hs : (" " : String).length = 1 := rfl
  omega

/-- C10: DateItemDelegate::displayText treats the well-formed timestamp
-1 exactly like a malformed value, returning the blank (null) string,
while every other successfully converted timestamp is rendered through
the date-time formatter and is never blank. -/
theorem dateDelegate_sentinel :
    DateItemDelegate.displayText (some (-1)) = none ∧
    DateItemDelegate.displayText (some (-1)) = DateItemDelegate.displayText none ∧
    (∀ t : ℤ, t ≠ -1 →
      DateItemDelegate.displayText (some t) = some (formatDateTime t) ∧
      qIsEmpty (DateItemDelegate.displayText (some t)) = false) := by
  refine ⟨rfl, rfl, fun t ht => ?_⟩
  constructor
  · simp [DateItemDelegate.displayText, ht]
  · simp only [DateItemDelegate.displayText, if_neg ht, qIsEmpty]
    exact beq_eq_false_iff_ne.mpr (formatDateTime_ne_empty t)

/-- C10 witness: one day after the epoch formats as a date-time. -/
theorem dateDelegate_sentinel_check :
    DateItemDelegate.displayText (some 86400) = some (formatDateTime 86400) := by
  exact (dateDelegate_sentinel.2.2 86400 (by decide)).1
